import Mathlib

/-!
Verification of the replika namespace-replication controller.

The repository holds several historical variants of each controller
function.  Each variant is embedded separately and named after the file it
comes from:

* `...Sync`  — `controllers/replika_sync.go` (with the `Reconcile` of
  `controllers/replika_update.go`, second document, called `...MainUpd` /
  `...DeletionUpd` below);
* `...Ctrl`  — `controllers/replika_controller.go` (first document);
* `...Upd`   — `controllers/replika_update.go` (first document);
* `...P0`/`SetReplikaCondition` — `unnamed/part_000`;
* `sameReplikaConditionsPure`, `SameReplikaConditions` — `unnamed/part_001`;
* `...P2`    — `unnamed/part_002` (first document).

Cluster reads and writes (`r.Get`, `r.List`, `r.Create`, `r.Update`,
`r.Delete`, `r.Status().Update`) are modelled by explicit parameters:
an `Option` holding the data a successful read returns (`none` = the call
errored) and boolean oracles giving the success of each write.
`metav1.Now()` is modelled by a `Nat` timestamp passed in at each call
site.  Log statements have no observable effect and are not modelled.
-/

/-! ## Association-list maps (Go `map[string]string`, compared by lookup) -/

/-- Lookup in a string map, first binding wins (Go maps have unique keys). -/
def mapLookup (m : List (String × String)) (k : String) : Option String :=
  (m.find? (fun p => p.1 == k)).map (fun p => p.2)

/-- Go `m[k] = v`: replace the binding of `k` when present (a map binds
each key at most once), else append it. -/
def mapInsert : List (String × String) → String → String → List (String × String)
  | [], k, v => [(k, v)]
  | p :: rest, k, v => if p.1 == k then (k, v) :: rest else p :: mapInsert rest k v

/-- Remove every binding of key `k` (used to strip a label). -/
def mapErase (m : List (String × String)) (k : String) : List (String × String) :=
  m.filter (fun p => p.1 != k)

/-! ## Shared constants (`controllers/replika_sync.go`, `replika_controller.go`) -/

def resourceReplikaLabelPartOfKey : String := "replika.prosimcorp.com/part-of"

def resourceReplikaLabelCreatedKey : String := "replika.prosimcorp.com/created-by"

def resourceReplikaLabelCreatedValue : String := "replika-controller"

def defaultTargetNamespace : String := "default"

/-- `defaultSynchronizationTime = 15 * time.Second`, in nanoseconds
(Go `time.Duration`); the `"15s"` string of the older variants parses to
the same duration. -/
def defaultSynchronizationTimeNanos : Nat := 15 * 1000000000

/-- A single-quote character as a string (used inside log/condition
messages built with `+` in the Go source). -/
def squote : String := String.singleton (Char.ofNat 39)

/-! ## Condition model (`metav1.Condition`) -/

structure Condition where
  type : String
  status : String
  reason : String
  message : String
  lastTransitionTime : Nat
deriving DecidableEq

def conditionTrue : String := "True"

def conditionFalse : String := "False"

def ConditionTypeSourceSynced : String := "SourceSynced"

def ConditionReasonSourceNotFound : String := "SourceNotFound"

def ConditionReasonSourceNotFoundMessage : String := "Source resource was not found"

def ConditionReasonTargetNamespaceNotFound : String := "TargetNamespaceNotFound"

def ConditionReasonTargetNamespaceNotFoundMessage : String := "A target namespace was not found"

def ConditionReasonSourceReplicationFailed : String := "SourceReplicationFailed"

def ConditionReasonSourceReplicationFailedMessage : String := "Error replicating the source on targets"

def ConditionReasonSourceReplicationInProcess : String := "SourceReplicationInProcess"

def ConditionReasonSourceSynced : String := "SourceSynced"

def ConditionReasonSourceSyncedMessage : String := "Source was successfully synchronized"

/-- `NewReplikaCondition` (both status variants): build a condition whose
`LastTransitionTime` is `metav1.Now()`, modelled by `now`. -/
def NewReplikaCondition (condType status reason message : String) (now : Nat) : Condition :=
  ⟨condType, status, reason, message, now⟩

/-- `GetReplikaCondition`: the first stored condition with the given type. -/
def condLookup (conds : List Condition) (condType : String) : Option Condition :=
  conds.find? (fun c => c.type == condType)

/-- Helper for `UpdateReplikaCondition`: overwrite status/reason/message and
stamp `now` on the first condition of `c.type`; `none` when no such
condition exists. -/
def setFirstCondition : List Condition → Condition → Nat → Option (List Condition)
  | [], _, _ => none
  | o :: rest, c, now =>
    if o.type == c.type then
      some ({ o with
              status := c.status
              reason := c.reason
              message := c.message
              lastTransitionTime := now } :: rest)
    else
      (setFirstCondition rest c now).map (fun l => o :: l)

/-- `UpdateReplikaCondition` (`controllers/replika_status.go`, first document,
identical in `unnamed/part_001`): append the condition when its type is not
present, otherwise update status/reason/message of the stored record in
place and unconditionally set `LastTransitionTime = metav1.Now()` (`now`). -/
def UpdateReplikaCondition (conds : List Condition) (c : Condition) (now : Nat) :
    List Condition :=
  match setFirstCondition conds c now with
  | some l => l
  | none => conds ++ [c]

/-- `filterOutCondition` (`unnamed/part_000`): drop every condition of the
given type. -/
def filterOutCondition (conds : List Condition) (condType : String) : List Condition :=
  conds.filter (fun c => c.type != condType)

/-- `SetReplikaCondition` (`unnamed/part_000`): identical
(status, reason, message) leaves the stored conditions untouched; a
status-preserving change keeps the previous `lastTransitionTime`.  The
`updateReplikaCondition` metrics stub it calls has an empty body for every
branch and is not modelled. -/
def SetReplikaCondition (conds : List Condition) (c : Condition) : List Condition :=
  match condLookup conds c.type with
  | some cur =>
    if cur.status == c.status && cur.reason == c.reason && cur.message == c.message then
      conds
    else
      let c2 := if cur.status == c.status then
          { c with lastTransitionTime := cur.lastTransitionTime }
        else c
      filterOutCondition conds c.type ++ [c2]
  | none => filterOutCondition conds c.type ++ [c]

/-- Inner comparison of `SameReplikaConditions` (`unnamed/part_001`): the
double loop returns `false` exactly when some pair of same-typed conditions
differs in status, reason or message. -/
def sameReplikaConditionsPure (newConds oldConds : List Condition) : Bool :=
  !(newConds.any (fun c => oldConds.any (fun o =>
      c.type == o.type &&
        (c.status != o.status || c.reason != o.reason || c.message != o.message))))

/-- `SameReplikaConditions` (`unnamed/part_001`): fetch the stored replika
(`stored`, `none` when `r.Get` fails, in which case `equal` keeps its
initial `true` and the error is returned) and compare condition sets.
Result: `(equal, errReturned)`. -/
def SameReplikaConditions (stored : Option (List Condition)) (conds : List Condition) :
    Bool × Bool :=
  match stored with
  | none => (true, true)
  | some old => (sameReplikaConditionsPure conds old, false)

/-- The deferred status write of `Reconcile`
(`controllers/replika_update.go`, second document, steps 5/372-384): skip
the `Status().Update` when `SameReplikaConditions` reports equality.  The
deferred assignments overwrite the named return `err`, so the second
component is the error the reconcile pass finally returns.
Result: `(persisted, errAfterDefer)`. -/
def deferredStatusUpd (stored : Option (List Condition)) (conds : List Condition)
    (statusUpdateOk : Bool) : Bool × Bool :=
  let s := SameReplikaConditions stored conds
  if s.1 then (false, s.2)
  else (true, !statusUpdateOk)

/-- The deferred status write of `Reconcile` (`unnamed/part_002`, first
document, lines 100-106): always persist; its error overwrites the named
return `err`.  Result: `(persisted, errAfterDefer)`. -/
def deferredStatusP2 (statusUpdateOk : Bool) : Bool × Bool :=
  (true, !statusUpdateOk)

/-! ## Replika spec model (`api/v1alpha1/replika_types.go`) -/

/-- `ReplikaSourceSpec`; `nspace` models the `Namespace` field
(`namespace` is a Lean keyword). -/
structure ReplikaSourceSpec where
  group : String
  version : String
  kind : String
  name : String
  nspace : String
deriving DecidableEq

structure ReplikaTargetNamespacesSpec where
  replicateIn : List String
  matchAll : Bool
  excludeFrom : List String
deriving DecidableEq

structure ReplikaTargetSpec where
  namespaces : ReplikaTargetNamespacesSpec
deriving DecidableEq

structure SynchronizationSpec where
  time : String
deriving DecidableEq

structure ReplikaSpec where
  synchronization : SynchronizationSpec
  source : ReplikaSourceSpec
  target : ReplikaTargetSpec
deriving DecidableEq

/-! ## Namespace-name grammar -/

/-- A character of the class `[a-z0-9]`. -/
def isLowerAlnum (c : Char) : Bool :=
  (Char.ofNat 97 ≤ c && c ≤ Char.ofNat 122) || (Char.ofNat 48 ≤ c && c ≤ Char.ofNat 57)

/-- Full-string match of the anchored Go pattern
`^[a-z0-9]([-a-z0-9]*[a-z0-9])?$` used by
`controllers/replika_sync.go`: nonempty, first and last characters in
`[a-z0-9]`, every middle character in `[-a-z0-9]`. -/
def matchesNamespaceRegex (s : String) : Bool :=
  match s.toList with
  | [] => false
  | c :: rest =>
    isLowerAlnum c &&
      (match rest.reverse with
       | [] => true
       | d :: mid => isLowerAlnum d && mid.all (fun x => isLowerAlnum x || x == Char.ofNat 45))

/-- The unanchored `regexp.Match` of pattern `[a-z0-9]([-a-z0-9]*[a-z0-9])?`
used by `controllers/replika_controller.go` and the first document of
`controllers/replika_update.go`: a substring match exists exactly when the
string contains at least one `[a-z0-9]` character (a single such character
already matches, and any match must start with one). -/
def containsLowerAlnum (s : String) : Bool :=
  s.toList.any isLowerAlnum

/-! ## Errors (`NewErrorf` calls and failed cluster calls) -/

inductive ReplikaError where
  | namespaceFormatError (ns : String)
  | sourceAndTargetSameNamespaceError (ns : String)
  | parseSyncTimeError (name : String)
  | listError
  | sourceNotFound
  | replicationFailed
deriving DecidableEq

/-! ## GetNamespaces — three variants -/

/-- Inner scan of the blacklist in `GetNamespaces`
(`controllers/replika_sync.go` lines 65-76): entries are checked in order;
a malformed entry fails the whole resolution, a matching entry skips the
namespace (`continue namespaceLoop`). -/
def checkExcludedSync (excludeFrom : List String) (ns : String) :
    Except ReplikaError Bool :=
  match excludeFrom with
  | [] => .ok false
  | e :: rest =>
    if !matchesNamespaceRegex e then .error (ReplikaError.namespaceFormatError e)
    else if e == ns then .ok true
    else checkExcludedSync rest ns

/-- The `namespaceLoop` of the `matchAll` branch
(`controllers/replika_sync.go` lines 55-78): skip the source namespace,
fail on a malformed blacklist entry (returning the namespaces appended so
far), skip blacklisted namespaces, append the rest. -/
def matchAllLoopSync (sourceNs : String) (excludeFrom : List String) :
    List String → List String × Option ReplikaError
  | [] => ([], none)
  | ns :: rest =>
    if ns == sourceNs then matchAllLoopSync sourceNs excludeFrom rest
    else
      match checkExcludedSync excludeFrom ns with
      | .error e => ([], some e)
      | .ok true => matchAllLoopSync sourceNs excludeFrom rest
      | .ok false =>
        let r := matchAllLoopSync sourceNs excludeFrom rest
        (ns :: r.1, r.2)

/-- The explicit `replicateIn` loop (`controllers/replika_sync.go` lines
94-105).  An entry equal to the source namespace sets `err` (without
returning and without skipping the append); a malformed entry returns at
once; the final return carries the accumulated `err`. -/
def replicateInLoopSync (sourceNs : String) :
    List String → Option ReplikaError → List String × Option ReplikaError
  | [], errAcc => ([], errAcc)
  | v :: rest, errAcc =>
    let errAcc2 := if v == sourceNs then
        some (ReplikaError.sourceAndTargetSameNamespaceError v)
      else errAcc
    if !matchesNamespaceRegex v then ([], some (ReplikaError.namespaceFormatError v))
    else
      let r := replicateInLoopSync sourceNs rest errAcc2
      (v :: r.1, r.2)

/-- `GetNamespaces` (`controllers/replika_sync.go` lines 36-108).
`clusterNamespaces` is the result of `r.List` (`none` = list error); the
compile of the constant regular expression never fails and is not
modelled. -/
def GetNamespacesSync (replika : ReplikaSpec) (clusterNamespaces : Option (List String)) :
    List String × Option ReplikaError :=
  if replika.target.namespaces.matchAll then
    match clusterNamespaces with
    | none => ([], some ReplikaError.listError)
    | some items =>
      matchAllLoopSync replika.source.nspace replika.target.namespaces.excludeFrom items
  else if replika.target.namespaces.replicateIn.length == 0 then
    if replika.source.nspace != defaultTargetNamespace then
      ([defaultTargetNamespace], none)
    else
      ([], some (ReplikaError.sourceAndTargetSameNamespaceError defaultTargetNamespace))
  else
    replicateInLoopSync replika.source.nspace replika.target.namespaces.replicateIn none

/-- `GetNamespaces` (`controllers/replika_controller.go` lines 61-109):
`matchAll` first (no grammar check on the blacklist), then the empty
`replicateIn` default — returning an empty list with **no error** when the
source namespace is `"default"` — then the verbatim list filtered by the
unanchored regex and by inequality with the source namespace. -/
def GetNamespacesCtrl (replika : ReplikaSpec) (clusterNamespaces : Option (List String)) :
    List String × Option ReplikaError :=
  if replika.target.namespaces.matchAll then
    match clusterNamespaces with
    | none => ([], some ReplikaError.listError)
    | some items =>
      (items.filter (fun ns =>
        ns != replika.source.nspace &&
          !(replika.target.namespaces.excludeFrom.any (fun e => e == ns))), none)
  else if replika.target.namespaces.replicateIn.length == 0 then
    if replika.source.nspace != defaultTargetNamespace then ([defaultTargetNamespace], none)
    else ([], none)
  else
    (replika.target.namespaces.replicateIn.filter
      (fun v => containsLowerAlnum v && v != replika.source.nspace), none)

/-- `GetNamespaces` (`controllers/replika_update.go`, first document, lines
19-70): same pieces as the controller variant but with the empty
`replicateIn` branch checked first. -/
def GetNamespacesUpd (replika : ReplikaSpec) (clusterNamespaces : Option (List String)) :
    List String × Option ReplikaError :=
  if replika.target.namespaces.replicateIn.length == 0 then
    if replika.source.nspace != defaultTargetNamespace then ([defaultTargetNamespace], none)
    else ([], none)
  else if replika.target.namespaces.matchAll then
    match clusterNamespaces with
    | none => ([], some ReplikaError.listError)
    | some items =>
      (items.filter (fun ns =>
        ns != replika.source.nspace &&
          !(replika.target.namespaces.excludeFrom.any (fun e => e == ns))), none)
  else
    (replika.target.namespaces.replicateIn.filter
      (fun v => containsLowerAlnum v && v != replika.source.nspace), none)

/-! ## GetSynchronizationTime — two variants -/

/-- `GetSynchronizationTime` (`controllers/replika_sync.go` lines 111-120).
`parseResult` is the outcome of `time.ParseDuration` on
`spec.synchronization.time` (`none` = parse error); on failure the default
duration is returned together with a `parseSyncTimeError`. -/
def GetSynchronizationTimeSync (parseResult : Option Nat) (replikaName : String) :
    Nat × Option ReplikaError :=
  match parseResult with
  | some d => (d, none)
  | none => (defaultSynchronizationTimeNanos, some (ReplikaError.parseSyncTimeError replikaName))

/-- `GetSynchronizationTime` (`controllers/replika_update.go`, first
document, lines 73-84): on a parse failure return the parsed `"15s"`
default together with the error (modelled as a boolean). -/
def GetSynchronizationTimeUpd (parseResult : Option Nat) : Nat × Bool :=
  match parseResult with
  | some d => (d, false)
  | none => (defaultSynchronizationTimeNanos, true)

/-! ## Unstructured objects and target building -/

/-- An `unstructured.Unstructured` object: the `metadata` subtree is
flattened into `name`/`nspace`/`labels`/`annotations`/`otherMetadata`
(identifiers such as the UID live in `otherMetadata`); `payload` stands for
the remaining top-level content (`spec`/`data`/...), carried verbatim by
`DeepCopy`; `status` is the `status` subtree (`none` = absent). -/
structure KObject where
  name : String
  nspace : String
  labels : List (String × String)
  annotations : List (String × String)
  otherMetadata : List (String × String)
  payload : String
  status : Option String
deriving DecidableEq

/-- The zero `unstructured.Unstructured{}` (what `r.Get` leaves behind when
it fails). -/
def emptyKObject : KObject :=
  ⟨"", "", [], [], [], "", none⟩

/-- The namespace-independent part of `BuildTargets`
(`controllers/replika_sync.go` lines 168-182, identical in the first
document of `controllers/replika_update.go`): deep-copy the source, remove
`metadata` and `status`, re-attach the source name and annotations, and set
the label map to a copy of the source labels with the two controller labels
written on top. -/
def buildTargetBase (source : KObject) (replikaName : String) : KObject :=
  { name := source.name
    nspace := ""
    labels := mapInsert
      (mapInsert source.labels resourceReplikaLabelCreatedKey resourceReplikaLabelCreatedValue)
      resourceReplikaLabelPartOfKey replikaName
    annotations := source.annotations
    otherMetadata := []
    payload := source.payload
    status := none }

/-- `BuildTargets` (`controllers/replika_sync.go` lines 142-192).
`sourceResult` is the outcome of `GetSource` (`none` = not found); the
namespace set comes from `GetNamespacesSync`.  Result:
`(targets, conditions, err)`. -/
def BuildTargetsSync (replika : ReplikaSpec) (replikaName : String)
    (sourceResult : Option KObject) (clusterNamespaces : Option (List String))
    (now : Nat) (conds : List Condition) :
    List KObject × List Condition × Option ReplikaError :=
  match sourceResult with
  | none =>
    ([],
     UpdateReplikaCondition conds
       (NewReplikaCondition ConditionTypeSourceSynced conditionFalse
         ConditionReasonSourceNotFound ConditionReasonSourceNotFoundMessage now) now,
     some ReplikaError.sourceNotFound)
  | some source =>
    let r := GetNamespacesSync replika clusterNamespaces
    match r.2 with
    | some e =>
      ([],
       UpdateReplikaCondition conds
         (NewReplikaCondition ConditionTypeSourceSynced conditionFalse
           ConditionReasonTargetNamespaceNotFound
           ConditionReasonTargetNamespaceNotFoundMessage now) now,
       some e)
    | none =>
      (r.1.map (fun ns => { buildTargetBase source replikaName with nspace := ns }),
       conds, none)

/-- `GetTargets` (`controllers/replika_update.go`, first document, lines
106-152): a missing source sets a `SourceNotFound` condition but does
**not** return — the build continues on the zero object; the `err` of the
source fetch is then overwritten by the `GetNamespaces` call, whose error
is the one returned. -/
def GetTargetsUpd (replika : ReplikaSpec) (replikaName : String)
    (sourceResult : Option KObject) (clusterNamespaces : Option (List String))
    (now : Nat) (conds : List Condition) :
    List KObject × List Condition × Option ReplikaError :=
  let srcMsg := "Can not find the resource inside namespace " ++ squote ++
    replika.source.nspace ++ squote
  let state := match sourceResult with
    | none =>
      (UpdateReplikaCondition conds
        (NewReplikaCondition ConditionTypeSourceSynced conditionFalse
          ConditionReasonSourceNotFound srcMsg now) now,
       emptyKObject)
    | some s => (conds, s)
  let r := GetNamespacesUpd replika clusterNamespaces
  (r.1.map (fun ns => { buildTargetBase state.2 replikaName with nspace := ns }),
   state.1, r.2)

/-! ## UpdateTargets — two variants -/

/-- The target loop of `UpdateTargets` (`controllers/replika_sync.go` lines
229-239): on the first failed `UpdateTarget` set the
`SourceReplicationFailed` condition and **return**; remaining targets are
not attempted.  `updFails` is the oracle for the create-or-update of one
target.  Result: `(attempted targets, conditions, err)`. -/
def updateTargetsLoopSync (updFails : KObject → Bool) (now : Nat) :
    List KObject → List Condition → List KObject × List Condition × Option ReplikaError
  | [], conds => ([], conds, none)
  | t :: rest, conds =>
    if updFails t then
      ([t],
       UpdateReplikaCondition conds
         (NewReplikaCondition ConditionTypeSourceSynced conditionFalse
           ConditionReasonSourceReplicationFailed
           ConditionReasonSourceReplicationFailedMessage now) now,
       some ReplikaError.replicationFailed)
    else
      let r := updateTargetsLoopSync updFails now rest conds
      (t :: r.1, r.2.1, r.2.2)

/-- `UpdateTargets` (`controllers/replika_sync.go` lines 218-242): build the
targets, then run the abort-on-first-failure loop. -/
def UpdateTargetsSync (replika : ReplikaSpec) (replikaName : String)
    (sourceResult : Option KObject) (clusterNamespaces : Option (List String))
    (updFails : KObject → Bool) (now : Nat) (conds : List Condition) :
    List KObject × List Condition × Option ReplikaError :=
  let b := BuildTargetsSync replika replikaName sourceResult clusterNamespaces now conds
  match b.2.2 with
  | some e => ([], b.2.1, some e)
  | none => updateTargetsLoopSync updFails now b.1 b.2.1

/-- Per-target failure message of the `UpdateTargets` loop
(`controllers/replika_update.go`, first document, line 216). -/
def updFailMessage (ns : String) : String :=
  "Can not update the target resource inside namespace " ++ squote ++ ns ++ squote

/-- The target loop of `UpdateTargets` (`controllers/replika_update.go`,
first document, lines 213-224): a failed target records a
`SourceReplicationFailed` condition and the loop **continues**; `err` is
overwritten on every iteration, so the loop's error is the last target's
outcome.  Result: `(attempted targets, conditions, err)`. -/
def updateTargetsLoopUpd (updFails : KObject → Bool) (now : Nat) :
    List KObject → List Condition → Bool → List KObject × List Condition × Bool
  | [], conds, errAcc => ([], conds, errAcc)
  | t :: rest, conds, _errAcc =>
    let e := updFails t
    let conds2 := if e then
        UpdateReplikaCondition conds
          (NewReplikaCondition ConditionTypeSourceSynced conditionFalse
            ConditionReasonSourceReplicationFailed (updFailMessage t.nspace) now) now
      else conds
    let r := updateTargetsLoopUpd updFails now rest conds2 e
    (t :: r.1, r.2.1, r.2.2)

/-- `UpdateTargets` (`controllers/replika_update.go`, first document, lines
189-227): set the `SourceReplicationInProcess` condition, get the targets
(a failure there records a condition but the loop still runs), then attempt
every target. -/
def UpdateTargetsUpd (replika : ReplikaSpec) (replikaName : String)
    (sourceResult : Option KObject) (clusterNamespaces : Option (List String))
    (updFails : KObject → Bool) (now : Nat) (conds : List Condition) :
    List KObject × List Condition × Bool :=
  let conds1 := UpdateReplikaCondition conds
    (NewReplikaCondition ConditionTypeSourceSynced conditionFalse
      ConditionReasonSourceReplicationInProcess "Source replication in process" now) now
  let g := GetTargetsUpd replika replikaName sourceResult clusterNamespaces now conds1
  let conds2 := if g.2.2.isSome then
      UpdateReplikaCondition g.2.1
        (NewReplikaCondition ConditionTypeSourceSynced conditionFalse
          ConditionReasonTargetNamespaceNotFound "Can not generate the targets resources" now) now
    else g.2.1
  updateTargetsLoopUpd updFails now g.1 conds2 g.2.2.isSome

/-! ## DeleteTargets — two variants -/

/-- An arbitrary cluster object as seen by label-selector listing. -/
structure ClusterObj where
  group : String
  version : String
  kind : String
  name : String
  nspace : String
  labels : List (String × String)
deriving DecidableEq

/-- The victim selection of `DeleteTargets` (`controllers/replika_sync.go`
lines 247-259): `r.List` with the source's GroupVersionKind and the
label selector `part-of = <replika name>`, over every namespace. -/
def deleteTargetsSyncList (src : ReplikaSourceSpec) (replikaName : String)
    (cluster : List ClusterObj) : List ClusterObj :=
  cluster.filter (fun o =>
    o.group == src.group && o.version == src.version && o.kind == src.kind &&
      mapLookup o.labels resourceReplikaLabelPartOfKey == some replikaName)

/-- The delete loop of `DeleteTargets` (`controllers/replika_sync.go` lines
262-267): return on the first failed delete.  Result:
`(objects whose deletion was attempted, err)`. -/
def deleteLoopSync (delFails : ClusterObj → Bool) :
    List ClusterObj → List ClusterObj × Bool
  | [] => ([], false)
  | o :: rest =>
    if delFails o then ([o], true)
    else
      let r := deleteLoopSync delFails rest
      (o :: r.1, r.2)

/-- `DeleteTargets` (`controllers/replika_sync.go` lines 245-270).
`cluster` is the content the label-selector list runs over (`none` = the
list call itself errored). -/
def DeleteTargetsSync (src : ReplikaSourceSpec) (replikaName : String)
    (cluster : Option (List ClusterObj)) (delFails : ClusterObj → Bool) :
    List ClusterObj × Bool :=
  match cluster with
  | none => ([], true)
  | some objs => deleteLoopSync delFails (deleteTargetsSyncList src replikaName objs)

/-- `DeleteTargets` (`controllers/replika_update.go`, first document, lines
230-256): recompute the namespace set with `GetNamespaces` (an error there
is only logged), then attempt one delete of the source-named object per
namespace; a failed delete is logged and the loop continues, `err` being
overwritten each iteration.  Result:
`(namespaces whose delete was attempted, err)`. -/
def DeleteTargetsUpd (replika : ReplikaSpec) (clusterNamespaces : Option (List String))
    (delFails : String → Bool) : List String × Bool :=
  let r := GetNamespacesUpd replika clusterNamespaces
  (r.1, r.1.foldl (fun _ ns => delFails ns) r.2.isSome)

/-! ## Reconcile — deletion branch and main path -/

/-- Observable outcome of the deletion branch of `Reconcile`:
`finalizerAttached` is the state of the finalizer on the in-memory manifest
at return, `errReturned` and `requeueAfterNanos` the pass's returned error
and `RequeueAfter`. -/
structure DeletionOutcome where
  finalizerAttached : Bool
  errReturned : Bool
  deleteAttempted : Bool
  requeueAfterNanos : Nat
deriving DecidableEq

/-- Deletion branch of `Reconcile` (`controllers/replika_update.go`, second
document, lines 342-361), entered with the deletion timestamp set: when the
finalizer is attached, run `DeleteTargetsSync`; an error returns at once
with the finalizer untouched and the named return `result` still zero; on
success remove the finalizer and persist (an update failure is only logged,
`err` is forced to `nil` and `result` to the zero `ctrl.Result{}`).  The
deferred status write of this `Reconcile` is registered **after** this
branch (step 5), so it does not run on these returns. -/
def reconcileDeletionUpd (finalizerPresent : Bool) (src : ReplikaSourceSpec)
    (replikaName : String) (cluster : Option (List ClusterObj))
    (delFails : ClusterObj → Bool) (_finalizerUpdateOk : Bool) : DeletionOutcome :=
  if finalizerPresent then
    let d := DeleteTargetsSync src replikaName cluster delFails
    if d.2 then ⟨true, true, true, 0⟩
    else ⟨false, false, true, 0⟩
  else ⟨false, false, false, 0⟩

/-- Deletion branch of `Reconcile` (`unnamed/part_002`, first document,
lines 108-127): same structure over `DeleteTargetsUpd`, but this
`Reconcile` registers its deferred status write (lines 101-106) **before**
the deletion branch, and that defer assigns to the named return `err` — so
every return here (after a `DeleteTargets` failure, after a failed
finalizer-removal update, and on success alike) actually returns the
outcome of the deferred `Status().Update`, masking the branch's own error
when the status write succeeds.  `result.RequeueAfter` was preset to
5 seconds (line 80) and is returned unchanged, so the pass is re-triggered
regardless of the returned error. -/
def reconcileDeletionP2 (finalizerPresent : Bool) (replika : ReplikaSpec)
    (clusterNamespaces : Option (List String)) (delFails : String → Bool)
    (_finalizerUpdateOk : Bool) (statusUpdateOk : Bool) : DeletionOutcome :=
  if finalizerPresent then
    let d := DeleteTargetsUpd replika clusterNamespaces delFails
    if d.2 then ⟨true, (deferredStatusP2 statusUpdateOk).2, true, 5 * 1000000000⟩
    else ⟨false, (deferredStatusP2 statusUpdateOk).2, true, 5 * 1000000000⟩
  else ⟨false, (deferredStatusP2 statusUpdateOk).2, false, 5 * 1000000000⟩

/-- Observable outcome of the main (non-deletion) path of `Reconcile`. -/
structure MainOutcome where
  requeueAfterNanos : Nat
  errReturned : Bool
  successConditionSet : Bool
  statusPersisted : Bool
deriving DecidableEq

/-- Main path of `Reconcile` (`controllers/replika_update.go`, second
document, steps 5-8, lines 372-413), after the finalizer is ensured:
`UpdateTargets` (an error returns early with a zero result), then
`GetSynchronizationTime` (an error returns early with a zero result —
the default delay computed inside it is **discarded**), then
`RequeueAfter` is set and the `SourceSynced = True` condition recorded.
Every return runs the deferred status write, whose assignments overwrite
the returned `err`. -/
def reconcileMainUpd (replika : ReplikaSpec) (replikaName : String)
    (sourceResult : Option KObject) (clusterNamespaces : Option (List String))
    (updFails : KObject → Bool) (stored : Option (List Condition))
    (statusUpdateOk : Bool) (parseResult : Option Nat) (now : Nat)
    (conds : List Condition) : MainOutcome :=
  let u := UpdateTargetsSync replika replikaName sourceResult clusterNamespaces
    updFails now conds
  match u.2.2 with
  | some _ =>
    let d := deferredStatusUpd stored u.2.1 statusUpdateOk
    ⟨0, d.2, false, d.1⟩
  | none =>
    let g := GetSynchronizationTimeSync parseResult replikaName
    match g.2 with
    | some _ =>
      let d := deferredStatusUpd stored u.2.1 statusUpdateOk
      ⟨0, d.2, false, d.1⟩
    | none =>
      let conds2 := UpdateReplikaCondition u.2.1
        (NewReplikaCondition ConditionTypeSourceSynced conditionTrue
          ConditionReasonSourceSynced ConditionReasonSourceSyncedMessage now) now
      let d := deferredStatusUpd stored conds2 statusUpdateOk
      ⟨g.1, d.2, true, d.1⟩

/-- Main path of `Reconcile` (`unnamed/part_002`, first document, steps
6-8, lines 138-163): `result.RequeueAfter` starts at 5 seconds; an
`UpdateTargets` error returns with it; a `GetSynchronizationTime` failure
is only logged, its returned default delay is used for `RequeueAfter`, and
the pass still records `SourceSynced = True`.  The deferred status write
always persists and overwrites the returned `err`. -/
def reconcileMainP2 (replika : ReplikaSpec) (replikaName : String)
    (sourceResult : Option KObject) (clusterNamespaces : Option (List String))
    (updFails : KObject → Bool) (statusUpdateOk : Bool) (parseResult : Option Nat)
    (now : Nat) (conds : List Condition) : MainOutcome :=
  let u := UpdateTargetsUpd replika replikaName sourceResult clusterNamespaces
    updFails now conds
  if u.2.2 then
    let d := deferredStatusP2 statusUpdateOk
    ⟨5 * 1000000000, d.2, false, d.1⟩
  else
    let g := GetSynchronizationTimeUpd parseResult
    let _conds2 := UpdateReplikaCondition u.2.1
      (NewReplikaCondition ConditionTypeSourceSynced conditionTrue
        ConditionReasonSourceSynced "Source synchronization was successfully" now) now
    let d := deferredStatusP2 statusUpdateOk
    ⟨g.1, d.2, true, d.1⟩

/-! # Map lemmas -/

theorem mapLookup_cons (p : String × String) (m : List (String × String)) (k : String) :
    mapLookup (p :: m) k = if p.1 == k then some p.2 else mapLookup m k := by
  by_cases h : p.1 == k
  · simp [mapLookup, List.find?_cons_of_pos, h]
  · have h2 : mapLookup (p :: m) k = mapLookup m k := by
      simp only [mapLookup]
      rw [@List.find?_cons_of_neg _ (fun q => q.1 == k) p m h]
    rw [h2, if_neg h]

theorem mapLookup_append (m1 m2 : List (String × String)) (k : String) :
    mapLookup (m1 ++ m2) k = (mapLookup m1 k).or (mapLookup m2 k) := by
  simp only [mapLookup, List.find?_append]
  cases m1.find? (fun p => p.1 == k) <;> simp

theorem mapLookup_mapInsert_self (m : List (String × String)) (k v : String) :
    mapLookup (mapInsert m k v) k = some v := by
  induction m with
  | nil => simp [mapInsert, mapLookup_cons]
  | cons p rest ih =>
    by_cases h : p.1 == k
    · simp [mapInsert, h, mapLookup_cons]
    · simp [mapInsert, h, mapLookup_cons, ih]

theorem mapLookup_mapInsert_ne (m : List (String × String)) (k v k' : String)
    (h : k' ≠ k) : mapLookup (mapInsert m k v) k' = mapLookup m k' := by
  induction m with
  | nil =>
    simp only [mapInsert, mapLookup_cons]
    have : (k == k') = false := by
      simpa using fun hk => h hk.symm
    simp [this, mapLookup]
  | cons p rest ih =>
    by_cases hp : p.1 == k
    · have hpk : p.1 = k := by simpa using hp
      have : (k == k') = false := by
        simpa using fun hk => h hk.symm
      simp [mapInsert, hp, mapLookup_cons, this, hpk]
    · simp [mapInsert, hp, mapLookup_cons, ih]

theorem mapInsert_of_lookup_none (m : List (String × String)) (k v : String)
    (h : mapLookup m k = none) : mapInsert m k v = m ++ [(k, v)] := by
  induction m with
  | nil => simp [mapInsert]
  | cons p rest ih =>
    rw [mapLookup_cons] at h
    by_cases hp : p.1 == k
    · simp [hp] at h
    · simp only [hp, if_false] at h
      simp [mapInsert, hp, ih h]

theorem mapErase_append (m1 m2 : List (String × String)) (k : String) :
    mapErase (m1 ++ m2) k = mapErase m1 k ++ mapErase m2 k := by
  simp [mapErase, List.filter_append]

theorem find?_of_mapLookup_none (m : List (String × String)) (k : String)
    (h : mapLookup m k = none) : m.find? (fun p => p.1 == k) = none := by
  simp only [mapLookup] at h
  cases hf : m.find? (fun p => p.1 == k) with
  | none => rfl
  | some p => rw [hf] at h; simp at h

theorem mapErase_of_lookup_none (m : List (String × String)) (k : String)
    (h : mapLookup m k = none) : mapErase m k = m := by
  have h3 := List.find?_eq_none.mp (find?_of_mapLookup_none m k h)
  apply List.filter_eq_self.mpr
  intro p hp
  simpa using h3 p hp

/-! # C8 — target building and label round-trip -/

theorem createdKey_ne_partOfKey :
    resourceReplikaLabelCreatedKey ≠ resourceReplikaLabelPartOfKey := by decide

/-- **C8** (amended): a target manifest built by `BuildTargets` carries the
source's payload with metadata and status stripped, the source's name and
annotations re-attached, and a label map equal to the source's labels
overlaid with the two controller labels (created-by and part-of) taking
precedence on key collision; **provided the source's labels contain neither
controller key**, stripping those two labels from the built target
reproduces the source's original labels (and the payload is carried
verbatim).  Without that proviso a source label under a controller key is
overwritten and lost, so exact reproduction fails (see the
counterexample). -/
theorem C8_build_roundtrip (source : KObject) (replikaName : String) :
    (buildTargetBase source replikaName).payload = source.payload ∧
    (buildTargetBase source replikaName).name = source.name ∧
    (buildTargetBase source replikaName).annotations = source.annotations ∧
    (buildTargetBase source replikaName).status = none ∧
    mapLookup (buildTargetBase source replikaName).labels resourceReplikaLabelCreatedKey =
      some resourceReplikaLabelCreatedValue ∧
    mapLookup (buildTargetBase source replikaName).labels resourceReplikaLabelPartOfKey =
      some replikaName ∧
    (∀ k, k ≠ resourceReplikaLabelCreatedKey → k ≠ resourceReplikaLabelPartOfKey →
      mapLookup (buildTargetBase source replikaName).labels k = mapLookup source.labels k) ∧
    (mapLookup source.labels resourceReplikaLabelCreatedKey = none →
      mapLookup source.labels resourceReplikaLabelPartOfKey = none →
      mapErase (mapErase (buildTargetBase source replikaName).labels
        resourceReplikaLabelCreatedKey) resourceReplikaLabelPartOfKey = source.labels) := by
  refine ⟨rfl, rfl, rfl, rfl, ?_, ?_, ?_, ?_⟩
  · show mapLookup (mapInsert (mapInsert source.labels resourceReplikaLabelCreatedKey
      resourceReplikaLabelCreatedValue) resourceReplikaLabelPartOfKey replikaName)
      resourceReplikaLabelCreatedKey = some resourceReplikaLabelCreatedValue
    rw [mapLookup_mapInsert_ne _ _ _ _ createdKey_ne_partOfKey,
      mapLookup_mapInsert_self]
  · exact mapLookup_mapInsert_self _ _ _
  · intro k hk1 hk2
    show mapLookup (mapInsert (mapInsert source.labels resourceReplikaLabelCreatedKey
      resourceReplikaLabelCreatedValue) resourceReplikaLabelPartOfKey replikaName) k =
      mapLookup source.labels k
    rw [mapLookup_mapInsert_ne _ _ _ _ hk2, mapLookup_mapInsert_ne _ _ _ _ hk1]
  · intro h1 h2
    show mapErase (mapErase (mapInsert (mapInsert source.labels
      resourceReplikaLabelCreatedKey resourceReplikaLabelCreatedValue)
      resourceReplikaLabelPartOfKey replikaName) resourceReplikaLabelCreatedKey)
      resourceReplikaLabelPartOfKey = source.labels
    rw [mapInsert_of_lookup_none _ _ _ h1]
    have h3 : mapLookup (source.labels ++
        [(resourceReplikaLabelCreatedKey, resourceReplikaLabelCreatedValue)])
        resourceReplikaLabelPartOfKey = none := by
      rw [mapLookup_append, h2]
      decide
    rw [mapInsert_of_lookup_none _ _ _ h3]
    have h4 : mapErase [(resourceReplikaLabelCreatedKey, resourceReplikaLabelCreatedValue)]
        resourceReplikaLabelCreatedKey = [] := by decide
    have hne : (resourceReplikaLabelPartOfKey != resourceReplikaLabelCreatedKey) = true := by
      decide
    have h5 : mapErase [(resourceReplikaLabelPartOfKey, replikaName)]
        resourceReplikaLabelCreatedKey = [(resourceReplikaLabelPartOfKey, replikaName)] := by
      simp only [mapErase, List.filter_cons, hne, if_true, List.filter_nil]
    have h6 : mapErase [(resourceReplikaLabelPartOfKey, replikaName)]
        resourceReplikaLabelPartOfKey = [] := by
      simp [mapErase]
    have e1 : mapErase ((source.labels ++
        [(resourceReplikaLabelCreatedKey, resourceReplikaLabelCreatedValue)]) ++
        [(resourceReplikaLabelPartOfKey, replikaName)]) resourceReplikaLabelCreatedKey =
        source.labels ++ [(resourceReplikaLabelPartOfKey, replikaName)] := by
      rw [mapErase_append, mapErase_append, mapErase_of_lookup_none _ _ h1, h4, h5]
      simp
    rw [e1, mapErase_append, mapErase_of_lookup_none _ _ h2, h6, List.append_nil]

/-- A source object that already carries the controller's created-by label
key with a foreign value. -/
def c8Source : KObject :=
  ⟨"cm", "default", [(resourceReplikaLabelCreatedKey, "manual")], [], [],
   "PAYLOAD", some "st"⟩

/-- **C8** counterexample: when the source already carries a label under the
created-by controller key, the overlay overwrites it, so stripping the two
controller labels from the built target does **not** reproduce the source's
original labels — the claimed exact round-trip is false. -/
theorem C8_counterexample :
    mapErase (mapErase (buildTargetBase c8Source "my-replika").labels
        resourceReplikaLabelCreatedKey) resourceReplikaLabelPartOfKey ≠ c8Source.labels ∧
    mapLookup (mapErase (mapErase (buildTargetBase c8Source "my-replika").labels
        resourceReplikaLabelCreatedKey) resourceReplikaLabelPartOfKey)
      resourceReplikaLabelCreatedKey = none ∧
    mapLookup c8Source.labels resourceReplikaLabelCreatedKey = some "manual" := by
  decide

/-- Witness for `C8_build_roundtrip` at a concrete collision-free source. -/
theorem C8_build_roundtrip_witness :
    mapLookup [("app", "x")] resourceReplikaLabelCreatedKey = none ∧
    mapLookup [("app", "x")] resourceReplikaLabelPartOfKey = none ∧
    mapErase (mapErase (buildTargetBase
        ⟨"cm", "default", [("app", "x")], [("a", "b")], [("uid", "1")], "PAYLOAD", some "st"⟩
        "r1").labels
      resourceReplikaLabelCreatedKey) resourceReplikaLabelPartOfKey = [("app", "x")] :=
  ⟨by decide, by decide,
    (C8_build_roundtrip
      ⟨"cm", "default", [("app", "x")], [("a", "b")], [("uid", "1")], "PAYLOAD", some "st"⟩
      "r1").2.2.2.2.2.2.2 (by decide) (by decide)⟩

/-! # C1/C2/C3 — namespace resolution -/

/-- Once the accumulated error of the explicit `replicateIn` loop is set it
is never cleared (it can only be replaced by another error or cause an
early format-error return). -/
theorem replicateInLoopSync_some (sourceNs : String) (l : List String) (e : ReplikaError) :
    ∃ e2, (replicateInLoopSync sourceNs l (some e)).2 = some e2 := by
  induction l generalizing e with
  | nil => exact ⟨e, rfl⟩
  | cons v rest ih =>
    by_cases hr : matchesNamespaceRegex v
    · by_cases hv : v == sourceNs
      · simpa [replicateInLoopSync, hr, hv] using
          ih (ReplikaError.sourceAndTargetSameNamespaceError v)
      · simpa [replicateInLoopSync, hr, hv] using ih e
    · exact ⟨ReplikaError.namespaceFormatError v, by simp [replicateInLoopSync, hr]⟩

/-- If the explicit `replicateIn` loop finishes without error, the source
namespace is not among the returned namespaces. -/
theorem replicateInLoopSync_not_mem (sourceNs : String) (l : List String)
    (errAcc : Option ReplikaError)
    (h : (replicateInLoopSync sourceNs l errAcc).2 = none) :
    sourceNs ∉ (replicateInLoopSync sourceNs l errAcc).1 := by
  induction l generalizing errAcc with
  | nil => simp [replicateInLoopSync]
  | cons v rest ih =>
    by_cases hr : matchesNamespaceRegex v
    · by_cases hv : v == sourceNs
      · exfalso
        obtain ⟨e2, he2⟩ :=
          replicateInLoopSync_some sourceNs rest
            (ReplikaError.sourceAndTargetSameNamespaceError v)
        simp [replicateInLoopSync, hr, hv, he2] at h
      · have hv2 : sourceNs ≠ v := fun heq => hv (by simp [heq])
        have h2 : (replicateInLoopSync sourceNs rest errAcc).2 = none := by
          simpa [replicateInLoopSync, hr, hv] using h
        simpa [replicateInLoopSync, hr, hv] using ⟨hv2, ih errAcc h2⟩
    · simp [replicateInLoopSync, hr] at h

/-- The `matchAll` loop never returns the source namespace, error or not. -/
theorem matchAllLoopSync_not_mem (sourceNs : String) (excludeFrom items : List String) :
    sourceNs ∉ (matchAllLoopSync sourceNs excludeFrom items).1 := by
  induction items with
  | nil => simp [matchAllLoopSync]
  | cons ns rest ih =>
    by_cases hs : ns == sourceNs
    · simpa [matchAllLoopSync, hs] using ih
    · have hs2 : sourceNs ≠ ns := fun heq => hs (by simp [heq])
      cases hc : checkExcludedSync excludeFrom ns with
      | error e => simp [matchAllLoopSync, hs, hc]
      | ok b =>
        cases b
        · simpa [matchAllLoopSync, hs, hc] using ⟨hs2, ih⟩
        · simpa [matchAllLoopSync, hs, hc] using ih

/-- **C1** (amended): whenever `GetNamespaces` returns without error, the
returned namespace list never contains the source's own namespace — for the
`replika_sync.go` variant under every policy, and for the
`replika_controller.go` variant even unconditionally.  (The
`replika_sync.go` variant can however return a list containing the source
namespace **together with** the source-equals-target error, see the
counterexample.) -/
theorem C1_source_never_member (replika : ReplikaSpec)
    (clusterNamespaces : Option (List String)) :
    ((GetNamespacesSync replika clusterNamespaces).2 = none →
      replika.source.nspace ∉ (GetNamespacesSync replika clusterNamespaces).1) ∧
    replika.source.nspace ∉ (GetNamespacesCtrl replika clusterNamespaces).1 := by
  constructor
  · intro h
    unfold GetNamespacesSync at h ⊢
    by_cases hm : replika.target.namespaces.matchAll
    · cases clusterNamespaces with
      | none => simp [hm]
      | some items => simpa [hm] using matchAllLoopSync_not_mem _ _ items
    · by_cases he : replika.target.namespaces.replicateIn.length == 0
      · by_cases hd : replika.source.nspace != defaultTargetNamespace
        · have hd2 : replika.source.nspace ≠ defaultTargetNamespace := by simpa using hd
          simp [hm, he, hd, hd2]
        · simp [hm, he, hd]
      · simp only [hm, he] at h ⊢
        simp only [Bool.false_eq_true, if_false] at h ⊢
        exact replicateInLoopSync_not_mem _ _ _ h
  · unfold GetNamespacesCtrl
    by_cases hm : replika.target.namespaces.matchAll
    · cases clusterNamespaces with
      | none => simp [hm]
      | some items =>
        simp only [hm, if_true]
        intro hmem
        have := (List.mem_filter.mp hmem).2
        simp at this
    · by_cases he : replika.target.namespaces.replicateIn.length == 0
      · by_cases hd : replika.source.nspace != defaultTargetNamespace
        · have hd2 : replika.source.nspace ≠ defaultTargetNamespace := by simpa using hd
          simp [hm, he, hd, hd2]
        · simp [hm, he, hd]
      · simp only [hm, he, Bool.false_eq_true, if_false]
        intro hmem
        have := (List.mem_filter.mp hmem).2
        simp at this

/-- A replika whose explicit `replicateIn` list names the source's own
namespace. -/
def c1BadSpec : ReplikaSpec :=
  ⟨⟨"10s"⟩, ⟨"", "v1", "ConfigMap", "cm", "default"⟩, ⟨⟨["default"], false, []⟩⟩⟩

/-- **C1** counterexample: with `replicateIn = ["default"]` and source
namespace `"default"`, the `replika_sync.go` `GetNamespaces` returns a
namespace list that contains the source's own namespace (the
source-equals-target error is set, but the entry is still appended and
returned), so the claim as stated — the returned list never contains the
source namespace — is false. -/
theorem C1_counterexample :
    c1BadSpec.source.nspace ∈ (GetNamespacesSync c1BadSpec none).1 ∧
    (GetNamespacesSync c1BadSpec none).2 =
      some (ReplikaError.sourceAndTargetSameNamespaceError "default") := by
  decide

/-- A replika with an explicit, well-formed `replicateIn` list distinct
from the source namespace. -/
def c1GoodSpec : ReplikaSpec :=
  ⟨⟨"10s"⟩, ⟨"", "v1", "ConfigMap", "cm", "default"⟩, ⟨⟨["team-a"], false, []⟩⟩⟩

/-- Witness for `C1_source_never_member` at a concrete error-free input. -/
theorem C1_source_never_member_witness :
    (GetNamespacesSync c1GoodSpec none).2 = none ∧
    c1GoodSpec.source.nspace ∉ (GetNamespacesSync c1GoodSpec none).1 :=
  ⟨by decide, (C1_source_never_member c1GoodSpec none).1 (by decide)⟩

/-- With a well-formed blacklist, the inner scan reduces to membership. -/
theorem checkExcludedSync_ok (excludeFrom : List String) (ns : String)
    (h : ∀ e ∈ excludeFrom, matchesNamespaceRegex e = true) :
    checkExcludedSync excludeFrom ns = .ok (excludeFrom.any (fun e => e == ns)) := by
  induction excludeFrom with
  | nil => simp [checkExcludedSync]
  | cons e rest ih =>
    have he := h e (by simp)
    by_cases hv : e == ns
    · simp [checkExcludedSync, he, hv]
    · simp [checkExcludedSync, he, hv, ih (fun x hx => h x (by simp [hx]))]

/-- With a well-formed blacklist, the `matchAll` loop is exactly a filter of
the enumerated namespaces. -/
theorem matchAllLoopSync_filter (sourceNs : String) (excl items : List String)
    (h : ∀ e ∈ excl, matchesNamespaceRegex e = true) :
    matchAllLoopSync sourceNs excl items =
      (items.filter (fun ns => ns != sourceNs && !(excl.any (fun e => e == ns))), none) := by
  induction items with
  | nil => simp [matchAllLoopSync]
  | cons ns rest ih =>
    by_cases hs : ns == sourceNs
    · have hs2 : (ns != sourceNs) = false := by simpa [bne] using hs
      simp [matchAllLoopSync, hs, ih, List.filter_cons, hs2]
    · have hs2 : (ns != sourceNs) = true := by simpa [bne] using hs
      by_cases ha : excl.any (fun e => e == ns)
      · simp [matchAllLoopSync, hs, checkExcludedSync_ok excl ns h, ha,
          ih, List.filter_cons, hs2]
      · simp [matchAllLoopSync, hs, checkExcludedSync_ok excl ns h, ha,
          ih, List.filter_cons, hs2]

/-- **C2** (confirmed): under `matchAll` with a well-formed `excludeFrom`
list, `GetNamespaces` returns — without error — exactly the enumerated
namespace universe minus the union of the `excludeFrom` entries and the
source namespace, and nothing else. -/
theorem C2_matchAll_exact (replika : ReplikaSpec) (domainUniverse : List String)
    (hm : replika.target.namespaces.matchAll = true)
    (h : ∀ e ∈ replika.target.namespaces.excludeFrom, matchesNamespaceRegex e = true) :
    GetNamespacesSync replika (some domainUniverse) =
      (domainUniverse.filter (fun ns => ns != replika.source.nspace &&
        !(replika.target.namespaces.excludeFrom.any (fun e => e == ns))), none) := by
  unfold GetNamespacesSync
  simp only [hm, if_true]
  exact matchAllLoopSync_filter _ _ _ h

/-- The replika of the C2 scenario: `matchAll: true`,
`excludeFrom: ["kube-system"]`, source namespace `default`. -/
def c2Spec : ReplikaSpec :=
  ⟨⟨"10s"⟩, ⟨"", "v1", "ConfigMap", "cm", "default"⟩, ⟨⟨[], true, ["kube-system"]⟩⟩⟩

/-- Witness for `C2_matchAll_exact`: the spec scenario — universe
`{default, kube-system, team-a, team-b}` resolves to exactly
`{team-a, team-b}`. -/
theorem C2_matchAll_exact_witness :
    c2Spec.target.namespaces.matchAll = true ∧
    (∀ e ∈ c2Spec.target.namespaces.excludeFrom, matchesNamespaceRegex e = true) ∧
    GetNamespacesSync c2Spec (some ["default", "kube-system", "team-a", "team-b"]) =
      (["team-a", "team-b"], none) :=
  ⟨by decide, by decide,
    (C2_matchAll_exact c2Spec ["default", "kube-system", "team-a", "team-b"]
      (by decide) (by decide)).trans (by decide)⟩

/-- **C3** (amended): with `matchAll` unset and an empty `replicateIn`, both
variants resolve to exactly `{"default"}` when the source namespace is not
`"default"`; when the source namespace **is** `"default"`, the
`replika_sync.go` variant fails with the source-equals-target error while
the `replika_controller.go` variant returns an empty namespace list with no
error. -/
theorem C3_empty_replicateIn (replika : ReplikaSpec)
    (clusterNamespaces : Option (List String))
    (hm : replika.target.namespaces.matchAll = false)
    (he : replika.target.namespaces.replicateIn = []) :
    (replika.source.nspace ≠ "default" →
      GetNamespacesSync replika clusterNamespaces = (["default"], none) ∧
      GetNamespacesCtrl replika clusterNamespaces = (["default"], none)) ∧
    (replika.source.nspace = "default" →
      GetNamespacesSync replika clusterNamespaces =
        ([], some (ReplikaError.sourceAndTargetSameNamespaceError "default")) ∧
      GetNamespacesCtrl replika clusterNamespaces = ([], none)) := by
  constructor
  · intro hsrc
    have hd : (replika.source.nspace != defaultTargetNamespace) = true := by
      simpa [defaultTargetNamespace] using hsrc
    constructor
    · unfold GetNamespacesSync
      simp [hm, he, hd, defaultTargetNamespace, hsrc]
    · unfold GetNamespacesCtrl
      simp [hm, he, hd, defaultTargetNamespace, hsrc]
  · intro hsrc
    have hd : (replika.source.nspace != defaultTargetNamespace) = false := by
      simp [defaultTargetNamespace, hsrc]
    constructor
    · unfold GetNamespacesSync
      simp [hm, he, hd, defaultTargetNamespace, hsrc]
    · unfold GetNamespacesCtrl
      simp [hm, he, hd, defaultTargetNamespace, hsrc]

/-- A replika with empty `replicateIn` whose source namespace is
`"default"`. -/
def c3Spec : ReplikaSpec :=
  ⟨⟨"10s"⟩, ⟨"", "v1", "ConfigMap", "cm", "default"⟩, ⟨⟨[], false, []⟩⟩⟩

/-- **C3** counterexample: the `replika_controller.go` variant cited by the
claim does **not** fail with a source-equals-target error when
`replicateIn` is empty and the source namespace is `"default"` — it returns
an empty namespace list and no error at all. -/
theorem C3_counterexample :
    GetNamespacesCtrl c3Spec (some ["default", "team-a"]) = ([], none) := by
  decide

/-- A replika with empty `replicateIn` and source namespace `team-a`. -/
def c3GoodSpec : ReplikaSpec :=
  ⟨⟨"10s"⟩, ⟨"", "v1", "ConfigMap", "cm", "team-a"⟩, ⟨⟨[], false, []⟩⟩⟩

/-- Witness for `C3_empty_replicateIn` at concrete inputs on both sides of
the source-namespace test. -/
theorem C3_empty_replicateIn_witness :
    (GetNamespacesSync c3GoodSpec none = (["default"], none) ∧
      GetNamespacesCtrl c3GoodSpec none = (["default"], none)) ∧
    (GetNamespacesSync c3Spec none =
        ([], some (ReplikaError.sourceAndTargetSameNamespaceError "default")) ∧
      GetNamespacesCtrl c3Spec none = ([], none)) :=
  ⟨(C3_empty_replicateIn c3GoodSpec none (by decide) (by decide)).1 (by decide),
   (C3_empty_replicateIn c3Spec none (by decide) (by decide)).2 (by decide)⟩

/-! # C7/C10 — condition bookkeeping -/

/-- Looking a type up after filtering it out and appending one record of
that type finds exactly the appended record. -/
theorem condLookup_filterOut_append (conds : List Condition) (x : Condition)
    (condType : String) (hx : x.type = condType) :
    condLookup (filterOutCondition conds condType ++ [x]) condType = some x := by
  have h1 : (filterOutCondition conds condType).find? (fun c => c.type == condType) = none := by
    apply List.find?_eq_none.mpr
    intro y hy
    rw [filterOutCondition] at hy
    have := (List.mem_filter.mp hy).2
    simpa using this
  simp [condLookup, List.find?_append, h1, hx]

/-- Unfolding of `SetReplikaCondition` when no record of the type exists. -/
theorem SetReplikaCondition_of_lookup_none (conds : List Condition) (c : Condition)
    (h : condLookup conds c.type = none) :
    SetReplikaCondition conds c = filterOutCondition conds c.type ++ [c] := by
  simp only [SetReplikaCondition, h]

/-- Unfolding of `SetReplikaCondition` when a record of the type exists. -/
theorem SetReplikaCondition_of_lookup_some (conds : List Condition) (c cur : Condition)
    (h : condLookup conds c.type = some cur) :
    SetReplikaCondition conds c =
      if (cur.status == c.status && cur.reason == c.reason && cur.message == c.message) then
        conds
      else
        filterOutCondition conds c.type ++
          [if cur.status == c.status then { c with lastTransitionTime := cur.lastTransitionTime }
           else c] := by
  simp only [SetReplikaCondition, h]

/-- **C7** (amended): `SetReplikaCondition` of `unnamed/part_000` satisfies
the claim — a repeated call with identical (status, reason, message) is a
complete no-op (so `lastTransitionTime` is updated at most once), and when
a record of the type exists and the status is unchanged the stored
`lastTransitionTime` is preserved.  The `UpdateReplikaCondition` of
`controllers/replika_status.go`, also cited by the claim, instead stamps a
fresh transition time on every call that finds an existing record, even
when nothing changed (see the counterexample). -/
theorem C7_setCondition_transition_clock (conds : List Condition) (c : Condition) (t2 : Nat) :
    SetReplikaCondition (SetReplikaCondition conds c)
      { c with lastTransitionTime := t2 } = SetReplikaCondition conds c ∧
    (∀ cur, condLookup conds c.type = some cur → cur.status = c.status →
      ∃ c2, condLookup (SetReplikaCondition conds c) c.type = some c2 ∧
        c2.lastTransitionTime = cur.lastTransitionTime) := by
  have key : ∃ c2, condLookup (SetReplikaCondition conds c) c.type = some c2 ∧
      c2.status = c.status ∧ c2.reason = c.reason ∧ c2.message = c.message := by
    cases hcur : condLookup conds c.type with
    | none =>
      refine ⟨c, ?_, rfl, rfl, rfl⟩
      rw [SetReplikaCondition_of_lookup_none conds c hcur]
      exact condLookup_filterOut_append conds c c.type rfl
    | some cur =>
      rw [SetReplikaCondition_of_lookup_some conds c cur hcur]
      by_cases heq : (cur.status == c.status && cur.reason == c.reason &&
          cur.message == c.message) = true
      · have h3 := heq
        simp only [Bool.and_eq_true, beq_iff_eq] at h3
        rw [if_pos heq]
        exact ⟨cur, hcur, h3.1.1, h3.1.2, h3.2⟩
      · rw [if_neg heq]
        by_cases hst : (cur.status == c.status) = true
        · rw [if_pos hst]
          exact ⟨_, condLookup_filterOut_append conds _ c.type rfl, rfl, rfl, rfl⟩
        · rw [if_neg hst]
          exact ⟨c, condLookup_filterOut_append conds c c.type rfl, rfl, rfl, rfl⟩
  obtain ⟨c2, hc2, hs, hr, hm⟩ := key
  constructor
  · have cond_true : (c2.status == ({ c with lastTransitionTime := t2 } : Condition).status &&
        c2.reason == ({ c with lastTransitionTime := t2 } : Condition).reason &&
        c2.message == ({ c with lastTransitionTime := t2 } : Condition).message) = true := by
      simp [hs, hr, hm]
    rw [SetReplikaCondition_of_lookup_some (SetReplikaCondition conds c)
      { c with lastTransitionTime := t2 } c2 hc2, if_pos cond_true]
  · intro cur hcur hst
    rw [SetReplikaCondition_of_lookup_some conds c cur hcur]
    by_cases heq : (cur.status == c.status && cur.reason == c.reason &&
        cur.message == c.message) = true
    · rw [if_pos heq]
      exact ⟨cur, hcur, rfl⟩
    · have hstb : (cur.status == c.status) = true := by simpa using hst
      rw [if_neg heq, if_pos hstb]
      exact ⟨_, condLookup_filterOut_append conds _ c.type rfl, rfl⟩

/-- A pre-existing `SourceSynced = True` condition with transition time 0. -/
def c7Cond0 : Condition := ⟨"SourceSynced", "True", "SourceSynced", "ok", 0⟩

/-- **C7** counterexample: two consecutive `UpdateReplikaCondition` calls
(`controllers/replika_status.go`) with identical (status, reason, message)
each move `lastTransitionTime` (0 to 1, then 1 to 2), although the status
never changed — refuting both "update only if the status changed" and
"updates `lastTransitionTime` at most once". -/
theorem C7_counterexample :
    (condLookup (UpdateReplikaCondition [c7Cond0]
        ⟨"SourceSynced", "True", "SourceSynced", "ok", 1⟩ 1) "SourceSynced").map
      (fun c => c.lastTransitionTime) = some 1 ∧
    (condLookup (UpdateReplikaCondition (UpdateReplikaCondition [c7Cond0]
        ⟨"SourceSynced", "True", "SourceSynced", "ok", 1⟩ 1)
        ⟨"SourceSynced", "True", "SourceSynced", "ok", 2⟩ 2) "SourceSynced").map
      (fun c => c.lastTransitionTime) = some 2 := by
  decide

/-- Witness for `C7_setCondition_transition_clock` at a concrete stored
condition whose status matches the incoming one. -/
theorem C7_setCondition_transition_clock_witness :
    condLookup [c7Cond0] "SourceSynced" = some c7Cond0 ∧
    (∃ c2, condLookup (SetReplikaCondition [c7Cond0]
        ⟨"SourceSynced", "True", "SourceSynced", "changed", 9⟩) "SourceSynced" = some c2 ∧
      c2.lastTransitionTime = c7Cond0.lastTransitionTime) :=
  ⟨by decide,
    (C7_setCondition_transition_clock [c7Cond0]
      ⟨"SourceSynced", "True", "SourceSynced", "changed", 9⟩ 3).2 c7Cond0
      (by decide) (by decide)⟩

/-- **C10** (confirmed): `SameReplikaConditions` reports the stored and
in-memory sets equal whenever no pair of same-typed conditions differs in
status, reason or message; in particular an in-memory condition whose type
has no stored counterpart (the hypothesis is then vacuous) still compares
equal, and the deferred status persist of `Reconcile` is skipped. -/
theorem C10_sameConditions_skips_persist (newConds oldConds : List Condition)
    (statusUpdateOk : Bool)
    (h : ∀ c ∈ newConds, ∀ o ∈ oldConds, c.type = o.type →
      c.status = o.status ∧ c.reason = o.reason ∧ c.message = o.message) :
    sameReplikaConditionsPure newConds oldConds = true ∧
    deferredStatusUpd (some oldConds) newConds statusUpdateOk = (false, false) := by
  have hp : sameReplikaConditionsPure newConds oldConds = true := by
    unfold sameReplikaConditionsPure
    simp only [Bool.not_eq_true']
    apply List.any_eq_false.mpr
    intro c hc
    intro hcontra
    rw [List.any_eq_true] at hcontra
    obtain ⟨o, ho, hpair⟩ := hcontra
    rw [Bool.and_eq_true] at hpair
    have ht : c.type = o.type := by simpa using hpair.1
    obtain ⟨h1, h2, h3⟩ := h c hc o ho ht
    simp [h1, h2, h3] at hpair
  exact ⟨hp, by simp [deferredStatusUpd, SameReplikaConditions, hp]⟩

/-- Witness for `C10_sameConditions_skips_persist`: the very first condition
ever added (stored set empty) is judged equal and never persisted. -/
theorem C10_sameConditions_skips_persist_witness :
    sameReplikaConditionsPure [⟨"SourceSynced", "True", "SourceSynced", "m", 7⟩] [] = true ∧
    deferredStatusUpd (some []) [⟨"SourceSynced", "True", "SourceSynced", "m", 7⟩] true =
      (false, false) :=
  C10_sameConditions_skips_persist [⟨"SourceSynced", "True", "SourceSynced", "m", 7⟩] [] true
    (by simp)

/-! # C4 — per-target failure handling in UpdateTargets -/

/-- The first stored `SourceSynced` condition records a replication
failure. -/
def hasFailRecord (conds : List Condition) : Bool :=
  match condLookup conds ConditionTypeSourceSynced with
  | some c => c.status == conditionFalse && c.reason == ConditionReasonSourceReplicationFailed
  | none => false

/-- Step equation of `UpdateReplikaCondition` on a non-empty list. -/
theorem UpdateReplikaCondition_cons (o : Condition) (conds : List Condition)
    (c : Condition) (now : Nat) :
    UpdateReplikaCondition (o :: conds) c now =
      if o.type == c.type then
        { o with
          status := c.status
          reason := c.reason
          message := c.message
          lastTransitionTime := now } :: conds
      else o :: UpdateReplikaCondition conds c now := by
  by_cases h : o.type == c.type
  · simp [UpdateReplikaCondition, setFirstCondition, h]
  · simp only [UpdateReplikaCondition, setFirstCondition, h, Bool.false_eq_true, if_false]
    cases hs : setFirstCondition conds c now <;> simp [hs]

/-- Applying `UpdateReplikaCondition` with a replication-failure condition
always leaves a replication-failure record. -/
theorem hasFailRecord_update (conds : List Condition) (c : Condition) (now : Nat)
    (ht : c.type = ConditionTypeSourceSynced)
    (hs : c.status = conditionFalse)
    (hr : c.reason = ConditionReasonSourceReplicationFailed) :
    hasFailRecord (UpdateReplikaCondition conds c now) = true := by
  induction conds with
  | nil =>
    simp [UpdateReplikaCondition, setFirstCondition, hasFailRecord, condLookup, ht, hs, hr]
  | cons o rest ih =>
    rw [UpdateReplikaCondition_cons]
    by_cases h : (o.type == c.type) = true
    · have h2 : (o.type == ConditionTypeSourceSynced) = true := by
        rw [← ht]; exact h
      rw [if_pos h]
      simp [hasFailRecord, condLookup, List.find?_cons, h2, hs, hr]
    · have h3 : (o.type == ConditionTypeSourceSynced) = false := by
        rw [← ht]; simpa using h
      rw [if_neg h]
      simp only [hasFailRecord, condLookup, List.find?_cons, h3] at ih ⊢
      exact ih

/-- The continue-on-failure loop preserves an existing replication-failure
record. -/
theorem loopUpd_preserves_failRecord (updFails : KObject → Bool) (now : Nat)
    (targets : List KObject) (conds : List Condition) (errAcc : Bool)
    (h : hasFailRecord conds = true) :
    hasFailRecord (updateTargetsLoopUpd updFails now targets conds errAcc).2.1 = true := by
  induction targets generalizing conds errAcc with
  | nil => simpa [updateTargetsLoopUpd] using h
  | cons t rest ih =>
    by_cases hf : updFails t
    · simp only [updateTargetsLoopUpd, hf, if_true]
      exact ih _ _ (hasFailRecord_update _ _ _ rfl rfl rfl)
    · simp only [updateTargetsLoopUpd, hf, Bool.false_eq_true, if_false]
      exact ih _ _ h

/-- **C4** (amended): in the `replika_update.go` variant of the target loop
every sibling target is attempted whatever fails, and any failure leaves a
`SourceSynced = False / SourceReplicationFailed` condition record; in the
`replika_sync.go` variant the loop records that condition for the first
failing target and then aborts — targets after the first failure are never
attempted in that pass (see the counterexample). -/
theorem C4_target_loop_failure (updFails : KObject → Bool) (now : Nat)
    (targets : List KObject) (conds : List Condition) (errAcc : Bool) :
    (updateTargetsLoopUpd updFails now targets conds errAcc).1 = targets ∧
    ((∃ t ∈ targets, updFails t = true) →
      hasFailRecord (updateTargetsLoopUpd updFails now targets conds errAcc).2.1 = true) ∧
    (∀ t rest, updFails t = true →
      updateTargetsLoopSync updFails now (t :: rest) conds =
        ([t],
         UpdateReplikaCondition conds
           (NewReplikaCondition ConditionTypeSourceSynced conditionFalse
             ConditionReasonSourceReplicationFailed
             ConditionReasonSourceReplicationFailedMessage now) now,
         some ReplikaError.replicationFailed)) := by
  refine ⟨?_, ?_, ?_⟩
  · induction targets generalizing conds errAcc with
    | nil => simp [updateTargetsLoopUpd]
    | cons t rest ih => simp [updateTargetsLoopUpd, ih]
  · intro h
    induction targets generalizing conds errAcc with
    | nil => simp at h
    | cons t rest ih =>
      by_cases hf : updFails t
      · simp only [updateTargetsLoopUpd, hf, if_true]
        exact loopUpd_preserves_failRecord _ _ _ _ _
          (hasFailRecord_update _ _ _ rfl rfl rfl)
      · obtain ⟨t2, ht2, hft2⟩ := h
        rcases List.mem_cons.mp ht2 with rfl | hmem
        · exact absurd hft2 (by simpa using hf)
        · simp only [updateTargetsLoopUpd, hf, Bool.false_eq_true, if_false]
          exact ih _ _ ⟨t2, hmem, hft2⟩
  · intro t rest h
    simp [updateTargetsLoopSync, h]

/-- A replika replicating into two namespaces. -/
def c4Spec : ReplikaSpec :=
  ⟨⟨"10s"⟩, ⟨"", "v1", "ConfigMap", "cm", "default"⟩, ⟨⟨["team-a", "team-b"], false, []⟩⟩⟩

/-- Its source object. -/
def c4Source : KObject := ⟨"cm", "default", [], [], [], "PAYLOAD", none⟩

/-- **C4** counterexample: with two built targets and a create/update
failure on the first one, the `replika_sync.go` `UpdateTargets` attempts
only the first target and returns — the sibling target in `team-b` is not
attempted in that pass — whereas the `replika_update.go` variant attempts
both, refuting the claim for the cited `replika_sync.go` loop. -/
theorem C4_counterexample :
    ((UpdateTargetsSync c4Spec "r1" (some c4Source) none
        (fun t => t.nspace == "team-a") 5 []).1.map (fun t => t.nspace)) = ["team-a"] ∧
    (UpdateTargetsSync c4Spec "r1" (some c4Source) none
        (fun t => t.nspace == "team-a") 5 []).2.2 = some ReplikaError.replicationFailed ∧
    ((UpdateTargetsUpd c4Spec "r1" (some c4Source) none
        (fun t => t.nspace == "team-a") 5 []).1.map (fun t => t.nspace)) =
      ["team-a", "team-b"] := by
  decide

/-- Two concrete targets for the witness. -/
def c4TargetA : KObject := ⟨"cm", "team-a", [], [], [], "PAYLOAD", none⟩

/-- Second concrete target for the witness. -/
def c4TargetB : KObject := ⟨"cm", "team-b", [], [], [], "PAYLOAD", none⟩

/-- Witness for `C4_target_loop_failure` at a concrete failing target. -/
theorem C4_target_loop_failure_witness :
    (updateTargetsLoopUpd (fun t => t.nspace == "team-a") 5
      [c4TargetA, c4TargetB] [] false).1 = [c4TargetA, c4TargetB] ∧
    hasFailRecord (updateTargetsLoopUpd (fun t => t.nspace == "team-a") 5
      [c4TargetA, c4TargetB] [] false).2.1 = true :=
  ⟨(C4_target_loop_failure (fun t => t.nspace == "team-a") 5
      [c4TargetA, c4TargetB] [] false).1,
   (C4_target_loop_failure (fun t => t.nspace == "team-a") 5
      [c4TargetA, c4TargetB] [] false).2.1 ⟨c4TargetA, by decide, by decide⟩⟩

/-! # C5/C6 — deletion and the finalizer -/

/-- When no delete fails, the abort-on-first-failure loop deletes every
listed object. -/
theorem deleteLoopSync_all (delFails : ClusterObj → Bool) (objs : List ClusterObj)
    (h : ∀ o ∈ objs, delFails o = false) :
    deleteLoopSync delFails objs = (objs, false) := by
  induction objs with
  | nil => simp [deleteLoopSync]
  | cons o rest ih =>
    have ho := h o (by simp)
    simp [deleteLoopSync, ho, ih (fun x hx => h x (by simp [hx]))]

/-- **C5** (amended): the `replika_sync.go` `DeleteTargets` selects its
victims by listing, cluster-wide, every object of the source's
GroupVersionKind that carries `part-of = <replika name>` — when no delete
fails it deletes exactly that label-selected set — but it **returns on the
first delete failure**, leaving later listed objects unattempted (see the
counterexample); the `replika_update.go` variant instead recomputes the
namespace set with `GetNamespaces` and attempts one delete per resolved
namespace, continuing past failures. -/
theorem C5_delete_selection (src : ReplikaSourceSpec) (replikaName : String)
    (cluster : List ClusterObj) (delFails : ClusterObj → Bool)
    (replika : ReplikaSpec) (clusterNamespaces : Option (List String))
    (delFailsNs : String → Bool) :
    ((∀ o ∈ deleteTargetsSyncList src replikaName cluster, delFails o = false) →
      DeleteTargetsSync src replikaName (some cluster) delFails =
        (deleteTargetsSyncList src replikaName cluster, false)) ∧
    (DeleteTargetsUpd replika clusterNamespaces delFailsNs).1 =
      (GetNamespacesUpd replika clusterNamespaces).1 := by
  constructor
  · intro h
    simp [DeleteTargetsSync, deleteLoopSync_all _ _ h]
  · rfl

/-- The source reference used in the deletion scenarios. -/
def c5Src : ReplikaSourceSpec := ⟨"", "v1", "ConfigMap", "cm", "default"⟩

/-- A replicated object in `team-a` tagged `part-of = r1`. -/
def c5Obj1 : ClusterObj :=
  ⟨"", "v1", "ConfigMap", "cm", "team-a", [(resourceReplikaLabelPartOfKey, "r1")]⟩

/-- A replicated object in `team-b` tagged `part-of = r1`. -/
def c5Obj2 : ClusterObj :=
  ⟨"", "v1", "ConfigMap", "cm", "team-b", [(resourceReplikaLabelPartOfKey, "r1")]⟩

/-- **C5** counterexample: both objects carry the `part-of = r1` label and
are selected, but when deleting the first one fails, the `replika_sync.go`
`DeleteTargets` returns at once — the second listed object's deletion is
never attempted, refuting "a delete failure on one object does not prevent
attempting deletion of the remaining listed objects". -/
theorem C5_counterexample :
    deleteTargetsSyncList c5Src "r1" [c5Obj1, c5Obj2] = [c5Obj1, c5Obj2] ∧
    (DeleteTargetsSync c5Src "r1" (some [c5Obj1, c5Obj2])
      (fun o => o.nspace == "team-a")).1 = [c5Obj1] ∧
    (DeleteTargetsSync c5Src "r1" (some [c5Obj1, c5Obj2])
      (fun o => o.nspace == "team-a")).2 = true := by
  decide

/-- Witness for `C5_delete_selection` at a concrete failure-free cluster. -/
theorem C5_delete_selection_witness :
    (∀ o ∈ deleteTargetsSyncList c5Src "r1" [c5Obj1, c5Obj2],
      (fun _ => false : ClusterObj → Bool) o = false) ∧
    DeleteTargetsSync c5Src "r1" (some [c5Obj1, c5Obj2]) (fun _ => false) =
      ([c5Obj1, c5Obj2], false) :=
  ⟨by decide,
    ((C5_delete_selection c5Src "r1" [c5Obj1, c5Obj2] (fun _ => false)
      c4Spec none (fun _ => false)).1 (by decide)).trans (by decide)⟩

/-- **C6** (confirmed): in the deletion branch of `Reconcile` (both the
`replika_update.go` and the `unnamed/part_002` variants), when the
finalizer is attached and `DeleteTargets` returns an error, the pass
terminates at once with the finalizer still attached — the finalizer ends
up removed only when `DeleteTargets` returned success, so the entity is
retried rather than purged with orphaned targets.  How the retry is
ensured differs: the `replika_update.go` variant returns the delete error
(zero result), while in `unnamed/part_002` the deferred status write
registered before the branch overwrites the named return `err` (the pass
returns the status write's outcome, `nil` when it succeeds) and the retry
comes from the preset 5-second `RequeueAfter` that the branch returns. -/
theorem C6_finalizer_only_after_delete (src : ReplikaSourceSpec) (replikaName : String)
    (cluster : Option (List ClusterObj)) (delFails : ClusterObj → Bool)
    (finalizerUpdateOk : Bool) (replika : ReplikaSpec)
    (clusterNamespaces : Option (List String)) (delFailsNs : String → Bool)
    (finalizerUpdateOk2 : Bool) (statusUpdateOk : Bool) :
    ((DeleteTargetsSync src replikaName cluster delFails).2 = true →
      reconcileDeletionUpd true src replikaName cluster delFails finalizerUpdateOk =
        ⟨true, true, true, 0⟩) ∧
    ((reconcileDeletionUpd true src replikaName cluster delFails
        finalizerUpdateOk).finalizerAttached = false →
      (DeleteTargetsSync src replikaName cluster delFails).2 = false) ∧
    ((DeleteTargetsUpd replika clusterNamespaces delFailsNs).2 = true →
      reconcileDeletionP2 true replika clusterNamespaces delFailsNs finalizerUpdateOk2
          statusUpdateOk =
        ⟨true, !statusUpdateOk, true, 5 * 1000000000⟩) ∧
    ((reconcileDeletionP2 true replika clusterNamespaces delFailsNs finalizerUpdateOk2
        statusUpdateOk).finalizerAttached = false →
      (DeleteTargetsUpd replika clusterNamespaces delFailsNs).2 = false) := by
  refine ⟨?_, ?_, ?_, ?_⟩
  · intro h
    simp [reconcileDeletionUpd, h]
  · intro h
    by_cases hd : (DeleteTargetsSync src replikaName cluster delFails).2 = true
    · simp [reconcileDeletionUpd, hd] at h
    · simpa using hd
  · intro h
    simp [reconcileDeletionP2, h, deferredStatusP2]
  · intro h
    by_cases hd : (DeleteTargetsUpd replika clusterNamespaces delFailsNs).2 = true
    · simp [reconcileDeletionP2, hd] at h
    · simpa using hd

/-- Witness for `C6_finalizer_only_after_delete`: a failing delete keeps
the finalizer in both variants; `replika_update.go` returns the error with
a zero result, `unnamed/part_002` returns the (successful) deferred status
write's `nil` error together with the preset 5-second requeue. -/
theorem C6_finalizer_only_after_delete_witness :
    (DeleteTargetsSync c5Src "r1" (some [c5Obj1]) (fun _ => true)).2 = true ∧
    reconcileDeletionUpd true c5Src "r1" (some [c5Obj1]) (fun _ => true) true =
      ⟨true, true, true, 0⟩ ∧
    (DeleteTargetsUpd c4Spec none (fun _ => true)).2 = true ∧
    reconcileDeletionP2 true c4Spec none (fun _ => true) true true =
      ⟨true, false, true, 5 * 1000000000⟩ :=
  ⟨by decide,
    (C6_finalizer_only_after_delete c5Src "r1" (some [c5Obj1]) (fun _ => true) true
      c4Spec none (fun _ => true) true true).1 (by decide),
    by decide,
    (C6_finalizer_only_after_delete c5Src "r1" (some [c5Obj1]) (fun _ => true) true
      c4Spec none (fun _ => true) true true).2.2.1 (by decide)⟩

/-! # C9 — synchronization-time parse failures -/

/-- **C9** (amended): `GetSynchronizationTime` itself falls back to the
fixed 15-second default on a parse failure, returning it together with the
error (both variants); the `unnamed/part_002` `Reconcile` then only logs
that error, schedules with the returned default delay and still completes
the pass (recording `SourceSynced = True`); but the `replika_update.go`
`Reconcile` cited by the claim returns early on the parse error with a zero
result — the default delay it was handed is discarded and the success
condition is never recorded, so that pass does **not** schedule the default
delay (see the counterexample). -/
theorem C9_parse_failure_fallback (replikaName : String) (replika : ReplikaSpec)
    (sourceResult : Option KObject) (clusterNamespaces : Option (List String))
    (updFails : KObject → Bool) (stored : Option (List Condition))
    (statusUpdateOk : Bool) (now : Nat) (conds : List Condition) :
    GetSynchronizationTimeSync none replikaName =
      (defaultSynchronizationTimeNanos,
        some (ReplikaError.parseSyncTimeError replikaName)) ∧
    GetSynchronizationTimeUpd none = (defaultSynchronizationTimeNanos, true) ∧
    ((UpdateTargetsUpd replika replikaName sourceResult clusterNamespaces
        updFails now conds).2.2 = false →
      (reconcileMainP2 replika replikaName sourceResult clusterNamespaces updFails
          statusUpdateOk none now conds).requeueAfterNanos =
        defaultSynchronizationTimeNanos ∧
      (reconcileMainP2 replika replikaName sourceResult clusterNamespaces updFails
          statusUpdateOk none now conds).successConditionSet = true) ∧
    ((UpdateTargetsSync replika replikaName sourceResult clusterNamespaces
        updFails now conds).2.2 = none →
      (reconcileMainUpd replika replikaName sourceResult clusterNamespaces updFails
          stored statusUpdateOk none now conds).requeueAfterNanos = 0 ∧
      (reconcileMainUpd replika replikaName sourceResult clusterNamespaces updFails
          stored statusUpdateOk none now conds).successConditionSet = false) := by
  refine ⟨rfl, rfl, ?_, ?_⟩
  · intro h
    constructor <;> simp [reconcileMainP2, h, GetSynchronizationTimeUpd]
  · intro h
    constructor <;> simp [reconcileMainUpd, h, GetSynchronizationTimeSync]

/-- **C9** counterexample: a concrete pass of the `replika_update.go`
`Reconcile` where everything succeeds except the duration parse — the pass
stops early with a zero `RequeueAfter` (not the fixed default delay) and
without recording the success condition, refuting "falls back to the fixed
default delay for scheduling the next reconciliation". -/
theorem C9_counterexample :
    (reconcileMainUpd c4Spec "r1" (some c4Source) none (fun _ => false)
      (some []) true none 5 []).requeueAfterNanos = 0 ∧
    (reconcileMainUpd c4Spec "r1" (some c4Source) none (fun _ => false)
      (some []) true none 5 []).successConditionSet = false ∧
    (0 : Nat) ≠ defaultSynchronizationTimeNanos := by
  decide

/-- Witness for `C9_parse_failure_fallback` at concrete all-success
inputs. -/
theorem C9_parse_failure_fallback_witness :
    (UpdateTargetsUpd c4Spec "r1" (some c4Source) none (fun _ => false) 5 []).2.2 =
      false ∧
    (reconcileMainP2 c4Spec "r1" (some c4Source) none (fun _ => false)
        true none 5 []).requeueAfterNanos = defaultSynchronizationTimeNanos ∧
    (reconcileMainP2 c4Spec "r1" (some c4Source) none (fun _ => false)
        true none 5 []).successConditionSet = true :=
  ⟨by decide,
    ((C9_parse_failure_fallback "r1" c4Spec (some c4Source) none (fun _ => false)
      (some []) true 5 []).2.2.1 (by decide)).1,
    ((C9_parse_failure_fallback "r1" c4Spec (some c4Source) none (fun _ => false)
      (some []) true 5 []).2.2.1 (by decide)).2⟩
